import Mathlib

/-!
Shallow embedding of `appdaemon/apps/helper/virtual_light.py`.

The Python module defines a `VirtualLight` class: a proxy entity that
mirrors its on/off/brightness/color state onto one or more physical
light entities.  Python `None`-able integer values are modelled as
`Option Int`; calls to the injected platform API (`self.api.turn_on`,
`self.api.turn_off`) are modelled as values of an `ApiCommand` type;
calls to a physical light entity are modelled as `LightCommand` values.
`hasattr(light_entity, "...")` checks are modelled by boolean capability
fields on `LightEntity`.  A Python `ValueError` raised by the
`VirtualLightState` enum constructor is modelled as `Except.error`
carrying the offending string.
-/

namespace VL

/-- RGB colour triple, as the Python `rgb_color` attribute value. -/
abbrev Rgb := Int × Int × Int

/-- The `VirtualLightState` enum: `ON = "on"`, `OFF = "off"`. -/
inductive VirtualLightState where
  | ON
  | OFF
deriving DecidableEq

/-- `VirtualLightState(value)`: resolving a raw state string through the
enum.  Any string other than `"on"` or `"off"` raises `ValueError`,
modelled as `Except.error` carrying the invalid string. -/
def VirtualLightState.fromString (s : String) : Except String VirtualLightState :=
  if s = "on" then .ok .ON
  else if s = "off" then .ok .OFF
  else .error s

/-- A physical light entity, abstracted to the capabilities the callback
probes with `hasattr`. -/
structure LightEntity where
  has_turn_on_with_brightness_and_temp_kelvin : Bool
  has_turn_on_with_brightness_and_rgb : Bool
  has_turn_on_with_brightness : Bool
deriving DecidableEq

/-- Mutable instance fields of a `VirtualLight` object (the injected
`api` handle is implicit in the command model). -/
structure VirtualLight where
  ha_id : String
  room : Option String
  light_entities : List LightEntity
  default_temp_kelvin : Int
  last_on_brightness : Option Int
  last_on_temp_kelvin : Option Int
  overwrite_next_on_brightness : Option Int
  overwrite_next_on_temp_kelvin : Option Int
deriving DecidableEq

/-- `VirtualLight.__init__`: the field values the constructor assigns
(`room` is set post room initialisation, so it starts as `None`). -/
def VirtualLight.init (ha_id : String) (light_entities : List LightEntity) : VirtualLight :=
  { ha_id := ha_id
    room := none
    light_entities := light_entities
    default_temp_kelvin := 3000
    last_on_brightness := none
    last_on_temp_kelvin := none
    overwrite_next_on_brightness := none
    overwrite_next_on_temp_kelvin := none }

/-- A call issued to the platform API on the virtual entity itself.
Each constructor records the keyword arguments of the Python call, so a
brightness argument that is Python `None` is `none`. -/
inductive ApiCommand where
  | turnOn
  | turnOnWithBrightness (brightness : Option Int)
  | turnOnWithBrightnessAndTempKelvin (brightness temp_kelvin : Option Int)
  | turnOnWithBrightnessAndRgb (brightness : Option Int) (rgb : Option Rgb)
  | turnOff
deriving DecidableEq

/-- Whether the platform call is some form of `api.turn_on`. -/
def ApiCommand.isTurnOnCall : ApiCommand → Bool
  | .turnOff => false
  | _ => true

/-- The `brightness=` keyword argument of the platform call, when the
call carries one (`some none` is an explicit Python `None` argument). -/
def ApiCommand.brightnessArg : ApiCommand → Option (Option Int)
  | .turnOnWithBrightness b => some b
  | .turnOnWithBrightnessAndTempKelvin b _ => some b
  | .turnOnWithBrightnessAndRgb b _ => some b
  | _ => none

/-- The `color_temp_kelvin=` keyword argument of the platform call, when
the call carries one. -/
def ApiCommand.tempKelvinArg : ApiCommand → Option (Option Int)
  | .turnOnWithBrightnessAndTempKelvin _ t => some t
  | _ => none

/-- `VirtualLight.turn_on_with_brightness_and_temp_kelvin`. -/
def VirtualLight.turn_on_with_brightness_and_temp_kelvin (_s : VirtualLight)
    (brightness temp_kelvin : Option Int) : ApiCommand :=
  .turnOnWithBrightnessAndTempKelvin brightness temp_kelvin

/-- `VirtualLight.turn_on_with_brightness_and_rgb`. -/
def VirtualLight.turn_on_with_brightness_and_rgb (_s : VirtualLight)
    (brightness : Option Int) (rgb : Option Rgb) : ApiCommand :=
  .turnOnWithBrightnessAndRgb brightness rgb

/-- `VirtualLight.turn_on_with_brightness`: consults the one-shot
colour-temperature overwrite. -/
def VirtualLight.turn_on_with_brightness (s : VirtualLight)
    (brightness : Option Int) : ApiCommand :=
  match s.overwrite_next_on_temp_kelvin with
  | some t => s.turn_on_with_brightness_and_temp_kelvin brightness (some t)
  | none => .turnOnWithBrightness brightness

/-- `VirtualLight.turn_on`: consults both one-shot overwrites. -/
def VirtualLight.turn_on (s : VirtualLight) : ApiCommand :=
  match s.overwrite_next_on_brightness, s.overwrite_next_on_temp_kelvin with
  | some b, some t => s.turn_on_with_brightness_and_temp_kelvin (some b) (some t)
  | some b, none => s.turn_on_with_brightness (some b)
  | none, _ => .turnOn

/-- `VirtualLight.turn_off`. -/
def VirtualLight.turn_off (_s : VirtualLight) : ApiCommand := .turnOff

/-- `VirtualLight.turn_on_with_last_or_default_temp_kelvin`. -/
def VirtualLight.turn_on_with_last_or_default_temp_kelvin (s : VirtualLight) : ApiCommand :=
  match s.last_on_temp_kelvin with
  | some t => s.turn_on_with_brightness_and_temp_kelvin s.last_on_brightness (some t)
  | none =>
    match s.last_on_brightness with
    | some b => s.turn_on_with_brightness_and_temp_kelvin (some b) (some s.default_temp_kelvin)
    | none => s.turn_on_with_brightness_and_temp_kelvin (some 255) (some s.default_temp_kelvin)

/-- The attribute values the platform returns for the virtual entity
through `api.get_state(ha_id, attribute=...)`; every one may be `None`. -/
structure PlatformState where
  brightness : Option Int
  color_temp_kelvin : Option Int
  min_color_temp_kelvin : Option Int
  max_color_temp_kelvin : Option Int
deriving DecidableEq

/-- `VirtualLight.turn_on_with_brightness_delta`.  In Python,
`self.get_brightness() + brightness_delta` raises `TypeError` when the
platform reports brightness `None`; that case is `none` here. -/
def VirtualLight.turn_on_with_brightness_delta (s : VirtualLight)
    (p : PlatformState) (brightness_delta : Int) : Option ApiCommand :=
  match p.brightness with
  | none => none
  | some b =>
    let new_brightness := b + brightness_delta
    let new_brightness :=
      if new_brightness < 0 then 0
      else if new_brightness > 255 then 255
      else new_brightness
    some (s.turn_on_with_brightness (some new_brightness))

/-- `VirtualLight.turn_on_with_temp_kelvin_delta`.  In Python, the
`min`/`max` clamp raises `TypeError` when the platform reports a `None`
minimum or maximum temperature; that case is `none` here. -/
def VirtualLight.turn_on_with_temp_kelvin_delta (s : VirtualLight)
    (p : PlatformState) (temp_kelvin_delta : Int) : Option ApiCommand :=
  let temp_kelvin :=
    match p.color_temp_kelvin with
    | some t => t
    | none =>
      match s.last_on_temp_kelvin with
      | some t => t
      | none => s.default_temp_kelvin
  let new_temp_kelvin := temp_kelvin + temp_kelvin_delta
  match p.min_color_temp_kelvin, p.max_color_temp_kelvin with
  | some min_temp_kelvin, some max_temp_kelvin =>
    some (s.turn_on_with_brightness_and_temp_kelvin p.brightness
      (some (max (min new_temp_kelvin max_temp_kelvin) min_temp_kelvin)))
  | _, _ => none

/-- Modelled from the spec: the shared numeric helper
`decimal_to_octet_proportional` lives in the `globals` module, which is
not under src/.  Per the spec it maps a decimal proportion onto the
octet range 0..255 proportionally (0.5 is half brightness), modelled as
rounding `d * 255` to the nearest integer. -/
def decimal_to_octet_proportional (d : ℚ) : Int :=
  Int.floor (d * 255 + 1 / 2)

/-- A call issued to one physical light entity by the callback. -/
inductive LightCommand where
  | callTurnOnWithBrightnessAndTempKelvin (brightness temp_kelvin : Option Int)
  | callTurnOnWithBrightnessAndRgb (brightness : Option Int) (rgb : Option Rgb)
  | callTurnOnWithBrightness (brightness : Option Int)
  | callTurnOn
  | callTurnOff
deriving DecidableEq

/-- The short-circuit test `color_temp_kelvin is not None and
color_temp_kelvin > 2900` from the fourth cascade branch. -/
def kelvinAbove2900 : Option Int → Bool
  | some t => decide (2900 < t)
  | none => false

/-- The per-entity priority cascade from `VirtualLight.callback`, for an
on-event whose brightness is not `None`. -/
def cascadeCommand (brightness : Int) (color_temp_kelvin : Option Int)
    (rgb_color : Option Rgb) (light_entity : LightEntity) : LightCommand :=
  if color_temp_kelvin.isSome &&
      light_entity.has_turn_on_with_brightness_and_temp_kelvin then
    .callTurnOnWithBrightnessAndTempKelvin (some brightness) color_temp_kelvin
  else if rgb_color.isSome &&
      light_entity.has_turn_on_with_brightness_and_rgb then
    .callTurnOnWithBrightnessAndRgb (some brightness) rgb_color
  else if light_entity.has_turn_on_with_brightness then
    .callTurnOnWithBrightness (some brightness)
  else if decide (247 < brightness) && kelvinAbove2900 color_temp_kelvin then
    .callTurnOn
  else
    .callTurnOff

/-- The fields of the `new` dict of a state-change event that the
callback reads: `new["state"]` and `new["attributes"][...]`. -/
structure EventData where
  state : String
  brightness : Option Int
  color_temp_kelvin : Option Int
  rgb_color : Option Rgb
deriving DecidableEq

/-- The `new` argument of the callback: either the empty string or a
state dict. -/
inductive EventNew where
  | emptyStr
  | data (d : EventData)
deriving DecidableEq

/-- Everything a callback invocation produces: the updated instance
fields, the calls made to the physical light entities (in order of
`light_entities`), and the platform API calls on the virtual entity. -/
structure CallbackResult where
  state : VirtualLight
  lightCommands : List LightCommand
  apiCommands : List ApiCommand
deriving DecidableEq

/-- `VirtualLight.callback`.  An invalid state string propagates the
`ValueError` raised by the `VirtualLightState` constructor, before any
field assignment or command. -/
def VirtualLight.callback (s : VirtualLight) (new : EventNew) :
    Except String CallbackResult :=
  match new with
  | .emptyStr => .ok ⟨s, [], []⟩
  | .data d =>
    match VirtualLightState.fromString d.state with
    | .error e => .error e
    | .ok st =>
      match st, d.brightness with
      | .ON, some b =>
        .ok ⟨{ s with
                 last_on_brightness := some b
                 last_on_temp_kelvin := d.color_temp_kelvin
                 overwrite_next_on_brightness := none
                 overwrite_next_on_temp_kelvin := none },
             s.light_entities.map (cascadeCommand b d.color_temp_kelvin d.rgb_color),
             []⟩
      | .ON, none =>
        .ok ⟨s, [],
             [s.turn_on_with_brightness_and_temp_kelvin
                (some (decimal_to_octet_proportional (1 / 2)))
                (some s.default_temp_kelvin)]⟩
      | .OFF, _ =>
        .ok ⟨s, s.light_entities.map (fun _ => LightCommand.callTurnOff), []⟩

/-- `VirtualLight.set_overwrite_next_on_brightness`. -/
def VirtualLight.set_overwrite_next_on_brightness (s : VirtualLight)
    (brightness : Option Int) : VirtualLight :=
  { s with overwrite_next_on_brightness := brightness }

/-- `VirtualLight.set_overwrite_next_on_temp_kelvin`. -/
def VirtualLight.set_overwrite_next_on_temp_kelvin (s : VirtualLight)
    (temp_kelvin : Option Int) : VirtualLight :=
  { s with overwrite_next_on_temp_kelvin := temp_kelvin }

/-- One mutation of a `VirtualLight` object: one of the setters, the
post-initialisation room assignment, or a successful callback run.  The
remaining methods issue commands but assign no instance field. -/
inductive Step : VirtualLight → VirtualLight → Prop where
  | setOverwriteBrightness (s : VirtualLight) (b : Option Int) :
      Step s (s.set_overwrite_next_on_brightness b)
  | setOverwriteTempKelvin (s : VirtualLight) (t : Option Int) :
      Step s (s.set_overwrite_next_on_temp_kelvin t)
  | setRoom (s : VirtualLight) (r : Option String) :
      Step s { s with room := r }
  | callbackRun (s : VirtualLight) (ev : EventNew) (r : CallbackResult)
      (h : s.callback ev = .ok r) : Step s r.state

/-- A `VirtualLight` state reachable from construction by any sequence
of the class's operations and callback invocations. -/
def Reachable (s : VirtualLight) : Prop :=
  ∃ ha_id light_entities,
    Relation.ReflTransGen Step (VirtualLight.init ha_id light_entities) s

/-- The priority cascade as the claim states it (spec side, to be
compared with `cascadeCommand` from the source). -/
def claimCascade (brightness : Int) (color_temp_kelvin : Option Int)
    (rgb_color : Option Rgb) (e : LightEntity) : LightCommand :=
  if color_temp_kelvin ≠ none ∧ e.has_turn_on_with_brightness_and_temp_kelvin then
    .callTurnOnWithBrightnessAndTempKelvin (some brightness) color_temp_kelvin
  else if rgb_color ≠ none ∧ e.has_turn_on_with_brightness_and_rgb then
    .callTurnOnWithBrightnessAndRgb (some brightness) rgb_color
  else if e.has_turn_on_with_brightness then
    .callTurnOnWithBrightness (some brightness)
  else if 247 < brightness ∧ color_temp_kelvin.any (fun t => decide (2900 < t)) then
    .callTurnOn
  else
    .callTurnOff

/-- The source cascade and the claim-side cascade agree on every input. -/
theorem cascadeCommand_eq_claimCascade (b : Int) (ctk : Option Int)
    (rgb : Option Rgb) (e : LightEntity) :
    cascadeCommand b ctk rgb e = claimCascade b ctk rgb e := by
  unfold cascadeCommand claimCascade
  have hk : kelvinAbove2900 ctk = ctk.any (fun t => decide (2900 < t)) := by
    cases ctk <;> rfl
  rw [hk]
  simp only [Bool.and_eq_true, Option.isSome_iff_ne_none, decide_eq_true_eq]

/-- Concrete example inputs used by the witnesses below. -/
def exEntities : List LightEntity :=
  [⟨true, true, true⟩, ⟨false, true, true⟩, ⟨false, false, true⟩,
   ⟨false, false, false⟩]

def exVL : VirtualLight := VirtualLight.init "light.virtual_office" exEntities

/-- C1: for every on-event with a non-None brightness, the callback
sends exactly one command to each physical light entity, chosen by the
fixed priority cascade (kelvin-temperature call, else RGB call, else
brightness call, else plain turn-on when brightness exceeds 247 and the
colour temperature is present and exceeds 2900, else turn-off). -/
theorem C1_callback_on_cascade (s : VirtualLight) (d : EventData) (b : Int)
    (hst : d.state = "on") (hb : d.brightness = some b) :
    ∃ r, s.callback (.data d) = .ok r ∧
      r.lightCommands.length = s.light_entities.length ∧
      r.lightCommands =
        s.light_entities.map (claimCascade b d.color_temp_kelvin d.rgb_color) := by
  refine ⟨⟨{ s with
               last_on_brightness := some b
               last_on_temp_kelvin := d.color_temp_kelvin
               overwrite_next_on_brightness := none
               overwrite_next_on_temp_kelvin := none },
            s.light_entities.map (cascadeCommand b d.color_temp_kelvin d.rgb_color),
            []⟩, ?_, ?_, ?_⟩
  · simp [VirtualLight.callback, VirtualLightState.fromString, hst, hb]
  · simp
  · exact List.map_congr_left fun e _ =>
      cascadeCommand_eq_claimCascade b d.color_temp_kelvin d.rgb_color e

/-- C1 witness: the cascade at a concrete on-event over four entities
with distinct capability sets. -/
theorem C1_callback_on_cascade_witness :
    ∃ r, exVL.callback (.data ⟨"on", some 250, some 3500, some (255, 0, 0)⟩) = .ok r ∧
      r.lightCommands.length = exVL.light_entities.length ∧
      r.lightCommands =
        exVL.light_entities.map (claimCascade 250 (some 3500) (some (255, 0, 0))) :=
  C1_callback_on_cascade exVL ⟨"on", some 250, some 3500, some (255, 0, 0)⟩ 250 rfl rfl

/-- A state with only the colour-temperature overwrite pending. -/
def c2Ex : VirtualLight :=
  { VirtualLight.init "light.virtual_office" [] with
      overwrite_next_on_temp_kelvin := some 4000 }

/-- A state with both overwrites pending. -/
def c2ExBoth : VirtualLight :=
  { VirtualLight.init "light.virtual_office" [] with
      overwrite_next_on_brightness := some 100
      overwrite_next_on_temp_kelvin := some 4000 }

/-- C2 counterexample: in a state where `overwrite_next_on_temp_kelvin`
is set (4000) but `overwrite_next_on_brightness` is not, `turn_on`
issues a plain platform turn-on that carries no colour-temperature
argument at all, contrary to the claim. -/
theorem C2_counterexample :
    c2Ex.overwrite_next_on_temp_kelvin = some 4000 ∧
    c2Ex.overwrite_next_on_brightness = none ∧
    c2Ex.turn_on = ApiCommand.turnOn ∧
    c2Ex.turn_on.tempKelvinArg = none := by
  refine ⟨rfl, rfl, rfl, rfl⟩

/-- C2 amended: `turn_on` issues a turn-on carrying the stored
brightness whenever `overwrite_next_on_brightness` is set, and carrying
the stored colour temperature only when both overwrites are set; when
`overwrite_next_on_brightness` is `None` the call is a plain turn-on,
so a pending `overwrite_next_on_temp_kelvin` alone is not applied. -/
theorem C2_overwrite_applied (s : VirtualLight) :
    (∀ b, s.overwrite_next_on_brightness = some b →
      s.turn_on.brightnessArg = some (some b) ∧ s.turn_on.isTurnOnCall = true) ∧
    (∀ b t, s.overwrite_next_on_brightness = some b →
      s.overwrite_next_on_temp_kelvin = some t →
      s.turn_on.tempKelvinArg = some (some t)) ∧
    (s.overwrite_next_on_brightness = none → s.turn_on = ApiCommand.turnOn) := by
  obtain ⟨id, rm, le, dk, lb, lt, ob, ot⟩ := s
  refine ⟨?_, ?_, ?_⟩
  · rintro b rfl
    cases ot <;>
      simp [VirtualLight.turn_on, VirtualLight.turn_on_with_brightness,
        VirtualLight.turn_on_with_brightness_and_temp_kelvin,
        ApiCommand.brightnessArg, ApiCommand.isTurnOnCall]
  · rintro b t rfl rfl
    simp [VirtualLight.turn_on,
      VirtualLight.turn_on_with_brightness_and_temp_kelvin,
      ApiCommand.tempKelvinArg]
  · rintro rfl
    cases ot <;> simp [VirtualLight.turn_on]

/-- C2 amended witness: with brightness overwrite 100 and temperature
overwrite 4000 pending, `turn_on` carries both. -/
theorem C2_overwrite_applied_witness :
    c2ExBoth.overwrite_next_on_brightness = some 100 ∧
    c2ExBoth.overwrite_next_on_temp_kelvin = some 4000 ∧
    c2ExBoth.turn_on.brightnessArg = some (some 100) ∧
    c2ExBoth.turn_on.tempKelvinArg = some (some 4000) :=
  ⟨rfl, rfl, ((C2_overwrite_applied c2ExBoth).1 100 rfl).1,
    (C2_overwrite_applied c2ExBoth).2.1 100 4000 rfl rfl⟩

/-- C3: after the callback processes an on-event with non-None
brightness, both overwrite fields are `None`, and the callback modifies
no instance fields other than `last_on_brightness`,
`last_on_temp_kelvin` and the two overwrite fields. -/
theorem C3_overwrite_one_shot_frame (s : VirtualLight) (d : EventData)
    (r : CallbackResult) (hst : d.state = "on") (hb : d.brightness ≠ none)
    (h : s.callback (.data d) = .ok r) :
    r.state.overwrite_next_on_brightness = none ∧
    r.state.overwrite_next_on_temp_kelvin = none ∧
    r.state.ha_id = s.ha_id ∧
    r.state.room = s.room ∧
    r.state.light_entities = s.light_entities ∧
    r.state.default_temp_kelvin = s.default_temp_kelvin := by
  obtain ⟨b, hb⟩ := Option.ne_none_iff_exists.mp hb
  simp [VirtualLight.callback, VirtualLightState.fromString, hst, ← hb] at h
  subst h
  simp

/-- C3 witness: the frame condition at a concrete on-event. -/
theorem C3_overwrite_one_shot_frame_witness :
    ∃ r, c2ExBoth.callback (.data ⟨"on", some 10, none, none⟩) = .ok r ∧
      r.state.overwrite_next_on_brightness = none ∧
      r.state.overwrite_next_on_temp_kelvin = none ∧
      r.state.ha_id = c2ExBoth.ha_id ∧
      r.state.room = c2ExBoth.room ∧
      r.state.light_entities = c2ExBoth.light_entities ∧
      r.state.default_temp_kelvin = c2ExBoth.default_temp_kelvin := by
  refine ⟨_, rfl, C3_overwrite_one_shot_frame c2ExBoth
    ⟨"on", some 10, none, none⟩ _ rfl (by decide) rfl⟩

/-- C4: when the platform reports brightness `b`,
`turn_on_with_brightness_delta d` issues a turn-on whose brightness is
`b + d` clamped to `[0, 255]`. -/
theorem C4_brightness_delta_clamp (s : VirtualLight) (p : PlatformState)
    (b d : Int) (hb : p.brightness = some b) :
    ∃ cmd, s.turn_on_with_brightness_delta p d = some cmd ∧
      cmd.isTurnOnCall = true ∧
      cmd.brightnessArg =
        some (some (if b + d < 0 then 0 else if b + d > 255 then 255 else b + d)) := by
  refine ⟨s.turn_on_with_brightness
    (some (if b + d < 0 then 0 else if b + d > 255 then 255 else b + d)), ?_, ?_, ?_⟩
  · simp [VirtualLight.turn_on_with_brightness_delta, hb]
  · unfold VirtualLight.turn_on_with_brightness
    cases s.overwrite_next_on_temp_kelvin <;>
      simp [VirtualLight.turn_on_with_brightness_and_temp_kelvin,
        ApiCommand.isTurnOnCall]
  · unfold VirtualLight.turn_on_with_brightness
    cases s.overwrite_next_on_temp_kelvin <;>
      simp [VirtualLight.turn_on_with_brightness_and_temp_kelvin,
        ApiCommand.brightnessArg]

/-- C4 witness: brightness 250 plus delta 20 clamps to 255. -/
theorem C4_brightness_delta_clamp_witness :
    ∃ cmd, exVL.turn_on_with_brightness_delta ⟨some 250, none, none, none⟩ 20 = some cmd ∧
      cmd.isTurnOnCall = true ∧
      cmd.brightnessArg =
        some (some (if (250 : Int) + 20 < 0 then 0
          else if (250 : Int) + 20 > 255 then 255 else 250 + 20)) :=
  C4_brightness_delta_clamp exVL ⟨some 250, none, none, none⟩ 250 20 rfl

/-- C5: with platform bounds `mn ≤ mx`, `turn_on_with_temp_kelvin_delta d`
issues a turn-on keeping the current brightness and with colour
temperature `t + d` clamped to `[mn, mx]`, where `t` is the current
temperature, else `last_on_temp_kelvin`, else the default 3000. -/
theorem C5_temp_kelvin_delta_clamp (s : VirtualLight) (p : PlatformState)
    (d mn mx : Int) (hmn : p.min_color_temp_kelvin = some mn)
    (hmx : p.max_color_temp_kelvin = some mx) (hle : mn ≤ mx)
    (hdef : s.default_temp_kelvin = 3000) :
    s.turn_on_with_temp_kelvin_delta p d =
      some (ApiCommand.turnOnWithBrightnessAndTempKelvin p.brightness
        (some
          (let t := p.color_temp_kelvin.getD (s.last_on_temp_kelvin.getD 3000)
           if t + d < mn then mn else if t + d > mx then mx else t + d))) := by
  have harith : ∀ x : Int,
      max (min x mx) mn = if x < mn then mn else if x > mx then mx else x := by
    intro x
    split_ifs <;> omega
  unfold VirtualLight.turn_on_with_temp_kelvin_delta
  rw [hmn, hmx]
  unfold VirtualLight.turn_on_with_brightness_and_temp_kelvin
  cases hc : p.color_temp_kelvin <;> cases hl : s.last_on_temp_kelvin <;>
    simp [hc, hl, hdef, harith]

/-- C5 witness: current temperature 3100, delta −500, bounds
[2700, 6500]: the result is 2700 (clamped from 2600). -/
theorem C5_temp_kelvin_delta_clamp_witness :
    exVL.turn_on_with_temp_kelvin_delta ⟨some 80, some 3100, some 2700, some 6500⟩ (-500) =
      some (ApiCommand.turnOnWithBrightnessAndTempKelvin (some 80)
        (some
          (let t := (some (3100 : Int)).getD ((VirtualLight.init "light.virtual_office" exEntities).last_on_temp_kelvin.getD 3000)
           if t + -500 < 2700 then 2700 else if t + -500 > 6500 then 6500 else t + -500))) :=
  C5_temp_kelvin_delta_clamp exVL ⟨some 80, some 3100, some 2700, some 6500⟩
    (-500) 2700 6500 rfl rfl (by decide) rfl

/-- C6: for every off-event, the callback turns off every physical
light entity, issues no other command, and leaves every instance field
(including the last-on and overwrite fields) unchanged. -/
theorem C6_off_mirrors (s : VirtualLight) (d : EventData)
    (hst : d.state = "off") :
    s.callback (.data d) =
      .ok ⟨s, s.light_entities.map (fun _ => LightCommand.callTurnOff), []⟩ := by
  simp [VirtualLight.callback, VirtualLightState.fromString, hst]

/-- C6 witness: the off-event over the four example entities. -/
theorem C6_off_mirrors_witness :
    exVL.callback (.data ⟨"off", some 10, some 3000, none⟩) =
      .ok ⟨exVL, exVL.light_entities.map (fun _ => LightCommand.callTurnOff), []⟩ :=
  C6_off_mirrors exVL ⟨"off", some 10, some 3000, none⟩ rfl

/-- C7: after an on-event with non-None brightness,
`last_on_brightness` equals the event brightness and
`last_on_temp_kelvin` equals the event colour temperature (possibly
None); every other kind of event leaves both fields unchanged. -/
theorem C7_last_on_tracking (s : VirtualLight) (ev : EventNew)
    (r : CallbackResult) (h : s.callback ev = .ok r) :
    (∀ d, ev = .data d → d.state = "on" → d.brightness ≠ none →
      r.state.last_on_brightness = d.brightness ∧
      r.state.last_on_temp_kelvin = d.color_temp_kelvin) ∧
    ((∀ d, ev = .data d → ¬(d.state = "on" ∧ d.brightness ≠ none)) →
      r.state.last_on_brightness = s.last_on_brightness ∧
      r.state.last_on_temp_kelvin = s.last_on_temp_kelvin) := by
  cases ev with
  | emptyStr =>
    simp [VirtualLight.callback] at h
    subst h
    simp
  | data d =>
    by_cases hon : d.state = "on"
    · cases hb : d.brightness with
      | some b =>
        simp [VirtualLight.callback, VirtualLightState.fromString, hon, hb] at h
        subst h
        constructor
        · rintro d' ⟨rfl⟩ _ _
          simp [hb]
        · intro hno
          exact absurd ⟨hon, by simp [hb]⟩ (hno d rfl)
      | none =>
        simp [VirtualLight.callback, VirtualLightState.fromString, hon, hb] at h
        subst h
        constructor
        · rintro d' ⟨rfl⟩ _ hbne
          exact absurd hb hbne
        · intro _
          exact ⟨rfl, rfl⟩
    · by_cases hoff : d.state = "off"
      · simp [VirtualLight.callback, VirtualLightState.fromString, hon, hoff] at h
        subst h
        constructor
        · rintro d' ⟨rfl⟩ hon' _
          exact absurd hon' hon
        · intro _
          exact ⟨rfl, rfl⟩
      · simp [VirtualLight.callback, VirtualLightState.fromString, hon, hoff] at h

/-- C7 witness: an on-event with brightness 77 and no colour
temperature sets `last_on_brightness` to 77 and `last_on_temp_kelvin`
to `None`. -/
theorem C7_last_on_tracking_witness :
    ∃ r, exVL.callback (.data ⟨"on", some 77, none, none⟩) = .ok r ∧
      r.state.last_on_brightness = some 77 ∧
      r.state.last_on_temp_kelvin = none := by
  refine ⟨_, rfl, (C7_last_on_tracking exVL (.data ⟨"on", some 77, none, none⟩)
    _ rfl).1 ⟨"on", some 77, none, none⟩ rfl rfl (by decide)⟩

/-- Step preservation of the invariant `last_on_temp_kelvin ≠ None →
last_on_brightness ≠ None`: the only mutation touching the last-on
fields is the on-with-brightness callback branch, which assigns a
non-None brightness together with the temperature. -/
theorem lastOnInv_step {a b : VirtualLight} (hstep : Step a b)
    (ha : a.last_on_temp_kelvin ≠ none → a.last_on_brightness ≠ none) :
    b.last_on_temp_kelvin ≠ none → b.last_on_brightness ≠ none := by
  cases hstep with
  | setOverwriteBrightness v => exact ha
  | setOverwriteTempKelvin v => exact ha
  | setRoom rm => exact ha
  | callbackRun ev r h =>
    cases ev with
    | emptyStr =>
      simp [VirtualLight.callback] at h
      subst h
      exact ha
    | data d =>
      by_cases hon : d.state = "on"
      · cases hb : d.brightness with
        | some b2 =>
          simp [VirtualLight.callback, VirtualLightState.fromString, hon, hb] at h
          subst h
          simp
        | none =>
          simp [VirtualLight.callback, VirtualLightState.fromString, hon, hb] at h
          subst h
          exact ha
      · by_cases hoff : d.state = "off"
        · simp [VirtualLight.callback, VirtualLightState.fromString, hon, hoff] at h
          subst h
          exact ha
        · simp [VirtualLight.callback, VirtualLightState.fromString, hon, hoff] at h

/-- C8: in every reachable state, `last_on_temp_kelvin ≠ None` implies
`last_on_brightness ≠ None`, so
`turn_on_with_last_or_default_temp_kelvin` always passes a non-None
brightness (and a non-None temperature) to the platform turn-on. -/
theorem C8_last_on_invariant (s : VirtualLight) (h : Reachable s) :
    (s.last_on_temp_kelvin ≠ none → s.last_on_brightness ≠ none) ∧
    ∃ b t, s.turn_on_with_last_or_default_temp_kelvin =
      ApiCommand.turnOnWithBrightnessAndTempKelvin (some b) (some t) := by
  obtain ⟨ha_id, light_entities, hrt⟩ := h
  have hinv : s.last_on_temp_kelvin ≠ none → s.last_on_brightness ≠ none := by
    induction hrt with
    | refl => simp [VirtualLight.init]
    | tail hab hstep ih => exact lastOnInv_step hstep ih
  refine ⟨hinv, ?_⟩
  unfold VirtualLight.turn_on_with_last_or_default_temp_kelvin
  cases ht : s.last_on_temp_kelvin with
  | some t =>
    obtain ⟨b, hb⟩ := Option.ne_none_iff_exists.mp (hinv (by simp [ht]))
    rw [← hb]
    exact ⟨b, t, rfl⟩
  | none =>
    cases hbr : s.last_on_brightness with
    | some b => exact ⟨b, s.default_temp_kelvin, rfl⟩
    | none => exact ⟨255, s.default_temp_kelvin, rfl⟩

/-- C8 witness: the invariant and the non-None turn-on arguments at the
freshly constructed object. -/
theorem C8_last_on_invariant_witness :
    ((VirtualLight.init "light.virtual_office" []).last_on_temp_kelvin ≠ none →
      (VirtualLight.init "light.virtual_office" []).last_on_brightness ≠ none) ∧
    ∃ b t, (VirtualLight.init "light.virtual_office" []).turn_on_with_last_or_default_temp_kelvin =
      ApiCommand.turnOnWithBrightnessAndTempKelvin (some b) (some t) :=
  C8_last_on_invariant (VirtualLight.init "light.virtual_office" [])
    ⟨"light.virtual_office", [], Relation.ReflTransGen.refl⟩

/-- C9: a non-empty event whose state string is neither "on" nor "off"
makes the callback raise the enum `ValueError`, producing no ok-result
(so no commands and no field assignment); the empty-string event does
nothing at all. -/
theorem C9_invalid_state_error (s : VirtualLight) (d : EventData)
    (h1 : d.state ≠ "on") (h2 : d.state ≠ "off") :
    s.callback (.data d) = .error d.state ∧
    (∀ r, s.callback (.data d) ≠ .ok r) ∧
    s.callback .emptyStr = .ok ⟨s, [], []⟩ := by
  have he : s.callback (.data d) = .error d.state := by
    simp [VirtualLight.callback, VirtualLightState.fromString, h1, h2]
  refine ⟨he, ?_, rfl⟩
  intro r hr
  rw [he] at hr
  exact Except.noConfusion hr

/-- C9 witness: the "unavailable" state string raises. -/
theorem C9_invalid_state_error_witness :
    exVL.callback (.data ⟨"unavailable", none, none, none⟩) = .error "unavailable" ∧
    (∀ r, exVL.callback (.data ⟨"unavailable", none, none, none⟩) ≠ .ok r) ∧
    exVL.callback .emptyStr = .ok ⟨exVL, [], []⟩ :=
  C9_invalid_state_error exVL ⟨"unavailable", none, none, none⟩
    (by decide) (by decide)

/-- C10: an on-event with brightness None sends nothing to the physical
entities, changes no instance field, and re-issues a platform turn-on
of the virtual entity with half brightness
(`decimal_to_octet_proportional(0.5)`) and the default temperature
3000. -/
theorem C10_on_none_brightness (s : VirtualLight) (d : EventData)
    (hst : d.state = "on") (hb : d.brightness = none)
    (hdef : s.default_temp_kelvin = 3000) :
    s.callback (.data d) =
      .ok ⟨s, [],
        [ApiCommand.turnOnWithBrightnessAndTempKelvin
           (some (decimal_to_octet_proportional (1 / 2))) (some 3000)]⟩ := by
  simp [VirtualLight.callback, VirtualLightState.fromString, hst, hb,
    VirtualLight.turn_on_with_brightness_and_temp_kelvin, hdef]

/-- C10 witness: the half-brightness fallback at a concrete event. -/
theorem C10_on_none_brightness_witness :
    exVL.callback (.data ⟨"on", none, some 4500, none⟩) =
      .ok ⟨exVL, [],
        [ApiCommand.turnOnWithBrightnessAndTempKelvin
           (some (decimal_to_octet_proportional (1 / 2))) (some 3000)]⟩ :=
  C10_on_none_brightness exVL ⟨"on", none, some 4500, none⟩ rfl rfl rfl

end VL
